import Mathlib

/-!
Verification development for django-thumbnail-works.

Shallow embedding of `src/thumbnail_works/cropresize.py` and
`src/thumbnail_works/images.py`.  PIL images are modelled at the level of
their dimensions, color mode and EXIF orientation tag; every PIL call the
code performs (rotate, crop, resize, convert, filter) is recorded in an
operation trace so that theorems can observe which transformations were
applied.  Python float arithmetic on pixel dimensions is modelled by exact
rational arithmetic `ℚ`; for pixel-scale integers the float computations of
the source (products below 2^53, quotient comparisons separated by at least
1/(h*th) > 2^-32) round to the same comparisons and floors, so the rational
model is exact on the source's domain.  Python `int()` truncation toward
zero is `pyInt`.  Fallible code returns `Except PyExc`.

The process-wide Django settings module (`thumbnail_works/settings.py`,
providing THUMBNAILS_FORMAT, THUMBNAILS_QUALITY and THUMBNAILS_DIRNAME) is
not part of the sources; per the documented configuration surface these are
plain configuration values, so each definition that reads one takes it as an
explicit parameter.
-/

/-- One PIL operation applied to an image, as recorded in the trace. -/
inductive ImgOp where
  | rotate (degrees : Nat)
  | cropBox (l u r b : Int)
  | resized (w h : Nat)
  | filtered (name : String)
  | converted (mode : String)
  deriving DecidableEq, Repr

/-- A PIL image: dimensions, color mode, optional EXIF orientation tag
(`none` models a missing/unreadable tag, i.e. any of the exceptions the
source swallows), and the trace of operations applied so far. -/
structure PImg where
  width : Nat
  height : Nat
  mode : String
  exif : Option Nat
  ops : List ImgOp
  deriving DecidableEq, Repr

/-- `Image.rotate(degrees, expand=True)`: a 90 or 270 degree rotation with
an expanded canvas swaps the dimensions; 180 keeps them. -/
def PImg.rotateExpand (img : PImg) (degrees : Nat) : PImg :=
  if degrees = 90 ∨ degrees = 270 then
    { img with width := img.height, height := img.width,
               ops := img.ops ++ [.rotate degrees] }
  else
    { img with ops := img.ops ++ [.rotate degrees] }

/-- `Image.crop((l, u, r, b))`: the result has exactly the box's size
(PIL pads when the box leaves the image bounds, it does not clamp). -/
def PImg.crop (img : PImg) (l u r b : Int) : PImg :=
  { img with width := (r - l).toNat, height := (b - u).toNat,
             ops := img.ops ++ [.cropBox l u r b] }

/-- `Image.resize((w, h), ...)`: the result has exactly the requested size. -/
def PImg.resize (img : PImg) (w h : Nat) : PImg :=
  { img with width := w, height := h, ops := img.ops ++ [.resized w h] }

/-- `Image.convert(mode)`. -/
def PImg.convert (img : PImg) (m : String) : PImg :=
  { img with mode := m, ops := img.ops ++ [.converted m] }

/-- `Image.filter(ImageFilter.<f>)`: dimension-preserving post-filter. -/
def PImg.filter (img : PImg) (f : String) : PImg :=
  { img with ops := img.ops ++ [.filtered f] }

/-- Python exceptions the embedded code can raise. -/
inductive PyExc where
  | assertionError
  | zeroDivisionError
  | typeError
  | attributeError
  | thumbnailOptionError (msg : String)
  | thumbnailWorksError (msg : String)
  deriving DecidableEq, Repr

/-- Python truthiness of a size component (`None` and `0` are falsy). -/
def pyTruthy : Option Nat → Bool
  | none => false
  | some n => decide (n ≠ 0)

/-- Python `int()` applied to a rational value: truncation toward zero. -/
def pyInt (q : ℚ) : Int :=
  if q < 0 then ⌈q⌉ else ⌊q⌋

/-- `cropresize.py` lines 86-99: find the EXIF orientation tag and rotate
accordingly; the source's `except (AttributeError, KeyError, IndexError):
pass` makes every lookup-failure a no-op, which the `none` branch models. -/
def exifRotate (image : PImg) : PImg :=
  match image.exif with
  | none => image
  | some t =>
    if t = 3 then image.rotateExpand 180
    else if t = 6 then image.rotateExpand 270
    else if t = 8 then image.rotateExpand 90
    else image

/-- `cropresize.py` lines 106-107: `if not new_height: new_height =
int(original_height * new_width / float(original_width))`.  `int()` of the
nonnegative float quotient is its floor, which on naturals is `Nat` division. -/
def derived_height (original_width original_height : Nat)
    (size : Option Nat × Option Nat) : Nat :=
  if pyTruthy size.2 then size.2.getD 0
  else original_height * size.1.getD 0 / original_width

/-- `cropresize.py` lines 109-110: `if not new_width: new_width =
int(original_width * new_height / float(original_height))`. -/
def derived_width (original_width original_height new_height : Nat)
    (size : Option Nat × Option Nat) : Nat :=
  if pyTruthy size.1 then size.1.getD 0
  else original_width * new_height / original_height

/-- `cropresize.py` lines 124-132: the body of `if crop:`.  Compares the
original aspect value (`original_aspect_ration` in the source) with the
target one and crops symmetrically on exactly one axis. -/
def crop_branch (image : PImg) (original_width original_height : Nat)
    (original_aspect_ration new_aspect : ℚ) : PImg :=
  if original_aspect_ration > new_aspect then
    let xoffset : Int :=
      pyInt ((1 / 2 : ℚ) * ((original_width : ℚ) - new_aspect * (original_height : ℚ)))
    image.crop xoffset 0 ((original_width : Int) - xoffset) (original_height : Int)
  else if original_aspect_ration < new_aspect then
    let yoffset : Int :=
      pyInt ((1 / 2 : ℚ) * ((original_height : ℚ) - (original_width : ℚ) / new_aspect))
    image.crop 0 yoffset (original_width : Int) ((original_height : Int) - yoffset)
  else image

/-- `cropresize.py` lines 68-134, `crop_resize(image, size, exact_size)`.

Every step mirrors the source in order:
* line 81: `assert size[0] or size[1]`;
* line 83: `original_width, original_height = image.size` — read BEFORE the
  EXIF rotation of lines 86-99;
* line 84: `new_width, new_height = size = list(size)` — the derived values
  below rebind the local names only, the `size` list is never mutated;
* line 101: `original_width / float(original_height)` raises
  ZeroDivisionError on a zero height;
* line 104: `crop = new_width and new_height` on the caller's components;
* lines 106-110: derivation of a missing component (division by
  `float(original_width)` raises when the width is zero);
* line 112: `new_width / float(new_height)` raises when `new_height` is 0;
* lines 114-122: the nested upscale checks, whose only effect is the early
  `return image` when both derived dimensions exceed the original and
  `exact_size` is false;
* lines 124-132: `crop_branch`;
* line 134: `image.resize(size, Image.ANTIALIAS)` — with the caller's
  ORIGINAL `size` list, not the derived values; a `None` component reaches
  PIL and raises TypeError, a `0` component is used as-is. -/
def crop_resize (image0 : PImg) (size : Option Nat × Option Nat)
    (exact_size : Bool) : Except PyExc PImg :=
  if !(pyTruthy size.1 || pyTruthy size.2) then .error .assertionError else
  let original_width := image0.width
  let original_height := image0.height
  let image := exifRotate image0
  if original_height = 0 then .error .zeroDivisionError else
  let original_aspect_ration : ℚ := (original_width : ℚ) / (original_height : ℚ)
  let crop := pyTruthy size.1 && pyTruthy size.2
  if original_width = 0 ∧ ¬ pyTruthy size.2 = true then .error .zeroDivisionError else
  let new_height := derived_height original_width original_height size
  let new_width := derived_width original_width original_height new_height size
  if new_height = 0 then .error .zeroDivisionError else
  let new_aspect : ℚ := (new_width : ℚ) / (new_height : ℚ)
  if new_width > original_width ∧ new_height > original_height ∧ exact_size = false then
    .ok image
  else
    let image :=
      if crop then
        crop_branch image original_width original_height original_aspect_ration new_aspect
      else image
    match size.1, size.2 with
    | some w, some h => .ok (image.resize w h)
    | _, _ => .error .typeError

/-- A value stored in a processing-options dictionary: Python `None`, a
bool, a string, or a `(width, height)` size tuple. -/
inductive OptVal where
  | vNone
  | vBool (b : Bool)
  | vStr (s : String)
  | vSize (a b : Option Nat)
  deriving DecidableEq, Repr

/-- Python truthiness of an option value. -/
def pyTruthyVal : OptVal → Bool
  | .vNone => false
  | .vBool b => b
  | .vStr s => decide (s ≠ "")
  | .vSize _ _ => true

/-- Python `str()` of an option value (as used by `'.%s' % ext`). -/
def pyStr : OptVal → String
  | .vNone => "None"
  | .vBool true => "True"
  | .vBool false => "False"
  | .vStr s => s
  | .vSize a b =>
      let part : Option Nat → String := fun o => match o with
        | none => "None"
        | some n => toString n
      "(" ++ part a ++ ", " ++ part b ++ ")"

/-- Python `str.lower()` on the ASCII strings the code handles,
character-wise (structural over the string's character data). -/
def pyStrLower (s : String) : String :=
  ⟨s.data.map Char.toLower⟩

/-- Python `.lower()`: defined on strings, AttributeError otherwise. -/
def pyLower : OptVal → Except PyExc OptVal
  | .vStr s => .ok (.vStr (pyStrLower s))
  | _ => .error .attributeError

/-- A validated processing-options dictionary: after
`setup_image_processing_options` succeeds the dictionary holds exactly the
five supported keys, so it is represented as a record with one field per
key. -/
structure ProcOpts where
  size : OptVal
  sharpen : OptVal
  detail : OptVal
  upscale : OptVal
  format : OptVal
  deriving DecidableEq, Repr

/-- The raw `proc_opts` argument (when not `None`): either a Python dict,
modelled as an association list in key-insertion order, or a value of some
other type (the `not isinstance(proc_opts, dict)` case). -/
inductive RawOpts where
  | pyDict (entries : List (String × OptVal))
  | nonDict
  deriving DecidableEq, Repr

/-- `images.py` lines 38-44, `ImageProcessor.DEFAULT_OPTIONS`;
`thumbnails_format` stands for `settings.THUMBNAILS_FORMAT`. -/
def DEFAULT_OPTIONS (thumbnails_format : String) : ProcOpts :=
  { size := .vNone, sharpen := .vBool false, detail := .vBool false,
    upscale := .vBool false, format := .vStr thumbnails_format }

/-- The keys of `DEFAULT_OPTIONS`. -/
def defaultKeys : List String := ["size", "sharpen", "detail", "upscale", "format"]

/-- `self.proc_opts = self.DEFAULT_OPTIONS.copy(); self.proc_opts.update(proc_opts)`:
each supported key takes the supplied value when present, the default
otherwise. -/
def overlayOpts (thumbnails_format : String)
    (entries : List (String × OptVal)) : ProcOpts :=
  let d := DEFAULT_OPTIONS thumbnails_format
  { size := (entries.lookup "size").getD d.size,
    sharpen := (entries.lookup "sharpen").getD d.sharpen,
    detail := (entries.lookup "detail").getD d.detail,
    upscale := (entries.lookup "upscale").getD d.upscale,
    format := (entries.lookup "format").getD d.format }

/-- `images.py` lines 46-71, `ImageProcessor.setup_image_processing_options`.
`identifier` is `self.identifier` (`none` for the source image, the variant
name for a thumbnail). -/
def setup_image_processing_options (thumbnails_format : String)
    (identifier : Option String) (proc_opts : Option RawOpts) :
    Except PyExc (Option ProcOpts) :=
  match proc_opts with
  | none =>
      if identifier ≠ none then
        .error (.thumbnailOptionError
          "It is not possible to set the image processing options to None on thumbnails")
      else .ok none
  | some .nonDict => .error (.thumbnailOptionError "A dictionary object is required")
  | some (.pyDict entries) =>
      match entries.find? (fun kv => !(defaultKeys.contains kv.1)) with
      | some kv =>
          .error (.thumbnailOptionError ("Invalid thumbnail option `" ++ kv.1 ++ "`"))
      | none => .ok (some (overlayOpts thumbnails_format entries))

/-- `images.py` lines 73-89, `ImageProcessor.get_image_extension`.
Returns (Python) `None` when `self.proc_opts` is not a dict. -/
def get_image_extension (proc_opts : Option ProcOpts) :
    Except PyExc (Option String) :=
  match proc_opts with
  | none => .ok none
  | some o =>
      match (if pyTruthyVal o.format then pyLower o.format else .ok o.format) with
      | .error e => .error e
      | .ok extv =>
          if extv = OptVal.vStr "jpeg" then .ok (some ".jpg")
          else .ok (some ("." ++ pyStr extv))

/-- Split a character list at `'/'` separators. -/
def splitSlash (cs : List Char) : List (List Char) :=
  cs.foldr
    (fun c acc =>
      match acc with
      | [] => if c = '/' then [[], []] else [[c]]
      | h :: t => if c = '/' then [] :: h :: t else (c :: h) :: t)
    [[]]

/-- Join character-list path components with `'/'`. -/
def joinSlash : List (List Char) → List Char
  | [] => []
  | [c] => c
  | c :: cs => c ++ '/' :: joinSlash cs

/-- `os.path.dirname` for relative POSIX paths: everything before the last
separator. -/
def posixDirname (p : String) : String :=
  ⟨joinSlash (splitSlash p.data).dropLast⟩

/-- `os.path.basename` for relative POSIX paths: everything after the last
separator. -/
def posixBasename (p : String) : String :=
  ⟨(splitSlash p.data).getLastD []⟩

/-- `os.path.join` for two components (POSIX, relative second component
unless it is absolute). -/
def pjoin (a b : String) : String :=
  if b.data.head? = some '/' then b
  else if a.data = [] then b
  else if a.data.getLast? = some '/' then ⟨a.data ++ b.data⟩
  else ⟨a.data ++ '/' :: b.data⟩

/-- Index of the last `'.'` in a character list, if any. -/
def lastDotIdx (cs : List Char) : Option Nat :=
  (List.range cs.length).foldl
    (fun acc i => if cs.getD i ' ' = '.' then some i else acc) none

/-- `os.path.splitext` on a basename: split at the last dot, provided some
character before it is not itself a dot (so `.bashrc` has no extension). -/
def splitext (s : String) : String × String :=
  let cs := s.data
  match lastDotIdx cs with
  | none => (s, "")
  | some i =>
      if (cs.take i).any (fun c => c ≠ '.') then
        (⟨cs.take i⟩, ⟨cs.drop i⟩)
      else (s, "")

/-- `images.py` lines 91-145, `ImageProcessor.generate_image_name`.
`thumbnails_dirname` stands for `settings.THUMBNAILS_DIRNAME`; the returned
pair is `(path, ext)` where `ext` models the `self.ext = ext` side effect. -/
def generate_image_name (thumbnails_dirname : String)
    (identifier : Option String) (proc_opts : Option ProcOpts)
    (name : String) (force_ext : Option String) :
    Except PyExc (String × String) :=
  if name = "" then .error (.thumbnailWorksError "The provided name is not usable") else
  let root_dir := posixDirname name
  let filename := posixBasename name
  let be := splitext filename
  let extStep : Except PyExc String :=
    match force_ext with
    | some e => .ok e
    | none =>
        match get_image_extension proc_opts with
        | .error er => .error er
        | .ok eopt => .ok (eopt.getD be.2)
  match extStep with
  | .error er => .error er
  | .ok ext =>
      match identifier with
      | none => .ok (pjoin root_dir (be.1 ++ ext), ext)
      | some idf =>
          let image_filename := be.1 ++ "." ++ idf ++ ext
          if thumbnails_dirname ≠ "" then
            .ok (pjoin (pjoin root_dir thumbnails_dirname) image_filename, ext)
          else
            .ok (pjoin root_dir image_filename, ext)

/-- Spec section 4.4, the extension-precedence rule, transcribed from the
spec's words for comparison with the source-derived `generate_image_name`:
`force_ext` if given; else derived from the format ("JPEG" maps to ".jpg",
any other format to "." plus the format lowercased); else the path's own
default extension when the options are absent. -/
def spec_extension (fmt : Option String) (force_ext : Option String)
    (default_ext : String) : String :=
  match force_ext with
  | some e => e
  | none =>
      match fmt with
      | some f => if f = "JPEG" then ".jpg" else "." ++ pyStrLower f
      | none => default_ext

/-- Spec section 4.4, the naming shapes, transcribed from the spec's words:
a source image maps to `directory/stem+extension`, a variant to
`directory/<subdirectory>/stem.<identifier>.<extension>` (no subdirectory
component when none is configured). -/
def resolve_path_spec (subdir : String) (identifier : Option String)
    (fmt : Option String) (base_name : String) (force_ext : Option String) : String :=
  let d := posixDirname base_name
  let se := splitext (posixBasename base_name)
  let ext := spec_extension fmt force_ext se.2
  match identifier with
  | none => pjoin d (se.1 ++ ext)
  | some idf =>
      let fn := se.1 ++ "." ++ idf ++ ext
      if subdir ≠ "" then pjoin (pjoin d subdir) fn else pjoin d fn

/-- The `size` option as handed to `crop_resize`: it must be a 2-tuple,
anything else raises inside PIL. -/
def getSizePair : OptVal → Except PyExc (Option Nat × Option Nat)
  | .vSize a b => .ok (a, b)
  | _ => .error .typeError

/-- The result of `ImageProcessor.process_image`: the transformed image, the
format handed to `im.save`, and the JPEG quality when one was passed. -/
structure EncodedImage where
  image : PImg
  format : String
  quality : Option Nat
  deriving DecidableEq, Repr

/-- `images.py` lines 156-200, `ImageProcessor.process_image`.  The
byte-stream handling of lines 159-167 (storage access, rewinding, decoding)
is the external storage/codec collaborator; `content` is the decoded image.
`ext` is `self.ext` (set by `generate_image_name`), `thumbnails_quality`
stands for `settings.THUMBNAILS_QUALITY`.  Line 174 evaluates
`self.proc_opts['size']`, which on `proc_opts = None` subscripts `None` and
raises TypeError — there is no `None` guard in the source. -/
def process_image (thumbnails_quality : Nat) (proc_opts : Option ProcOpts)
    (ext : String) (content : PImg) : Except PyExc EncodedImage :=
  let im := if content.mode = "L" ∨ content.mode = "RGB" ∨ content.mode = "RGBA"
            then content else content.convert "RGB"
  match proc_opts with
  | none => .error .typeError
  | some opts =>
      let step : Except PyExc PImg :=
        if opts.size ≠ OptVal.vNone then
          match getSizePair opts.size with
          | .error e => .error e
          | .ok size => crop_resize im size (pyTruthyVal opts.upscale)
        else .ok im
      match step with
      | .error e => .error e
      | .ok im1 =>
          let im2 := if pyTruthyVal opts.sharpen then im1.filter "SHARPEN" else im1
          let im3 := if pyTruthyVal opts.detail then im2.filter "DETAIL" else im2
          let fmt := if pyTruthyVal opts.format then pyStr opts.format else ext
          if fmt = "JPEG" then .ok ⟨im3, fmt, some thumbnails_quality⟩
          else .ok ⟨im3, fmt, none⟩

/-! ## Helper lemmas -/

/-- The trace of `exifRotate` is the input trace, possibly extended by one
rotation. -/
lemma exifRotate_ops_cases (img : PImg) :
    (exifRotate img).ops = img.ops
    ∨ ∃ d, (exifRotate img).ops = img.ops ++ [ImgOp.rotate d] := by
  rcases he : img.exif with _ | t
  · left; simp [exifRotate, he]
  · simp only [exifRotate, he]
    split_ifs with h3 h6 h8
    · right; exact ⟨180, by simp [PImg.rotateExpand]⟩
    · right; exact ⟨270, by simp [PImg.rotateExpand]⟩
    · right; exact ⟨90, by simp [PImg.rotateExpand]⟩
    · left; rfl

/-- `exifRotate` is the identity on an image with no readable EXIF tag. -/
lemma exifRotate_noExif (w h : Nat) (m : String) (ops : List ImgOp) :
    exifRotate ⟨w, h, m, none, ops⟩ = ⟨w, h, m, none, ops⟩ := rfl

/-- Evaluation of `crop_resize` on a target with both components supplied:
the assert passes, nothing is derived, and the result is either the early
`return image` of the upscale check or the cropped-then-resized image. -/
lemma crop_resize_both (img : PImg) (tw th : Nat) (ex : Bool)
    (hh : img.height ≠ 0) (htw : tw ≠ 0) (hth : th ≠ 0) :
    crop_resize img (some tw, some th) ex =
      if tw > img.width ∧ th > img.height ∧ ex = false then .ok (exifRotate img)
      else .ok ((crop_branch (exifRotate img) img.width img.height
          ((img.width : ℚ) / (img.height : ℚ)) ((tw : ℚ) / (th : ℚ))).resize tw th) := by
  unfold crop_resize derived_height derived_width
  simp [pyTruthy, htw, hth, hh]

/-- Floor of a rational quotient of naturals is `Nat` division. -/
lemma int_floor_nat_div (a b : Nat) :
    ⌊((a : ℚ)) / ((b : ℚ))⌋ = ((a / b : ℕ) : ℤ) := by
  rw [← Nat.floor_div_eq_div (α := ℚ) a b]
  rw [Int.natCast_floor_eq_floor (by positivity)]

/-! ## C8: orientation normalization mapping -/

/-- C8: Orientation normalization maps tag 3 to a 180° rotation, 6 to a
270° rotation and 8 to a 90° rotation (90/270 swap the canvas dimensions);
any other tag value, or absent/unreadable orientation metadata, leaves the
image untouched — `exifRotate` is total, modelling that the source swallows
every lookup failure and never raises. -/
theorem C8_orientation_mapping (w h : Nat) (m : String) (eo : Option Nat)
    (ops : List ImgOp) :
    (eo = some 3 → exifRotate ⟨w, h, m, eo, ops⟩ = ⟨w, h, m, eo, ops ++ [.rotate 180]⟩)
    ∧ (eo = some 6 → exifRotate ⟨w, h, m, eo, ops⟩ = ⟨h, w, m, eo, ops ++ [.rotate 270]⟩)
    ∧ (eo = some 8 → exifRotate ⟨w, h, m, eo, ops⟩ = ⟨h, w, m, eo, ops ++ [.rotate 90]⟩)
    ∧ ((∀ t, eo = some t → t ≠ 3 ∧ t ≠ 6 ∧ t ≠ 8) →
        exifRotate ⟨w, h, m, eo, ops⟩ = ⟨w, h, m, eo, ops⟩) := by
  refine ⟨?_, ?_, ?_, ?_⟩
  · rintro rfl; simp [exifRotate, PImg.rotateExpand]
  · rintro rfl; simp [exifRotate, PImg.rotateExpand]
  · rintro rfl; simp [exifRotate, PImg.rotateExpand]
  · intro hother
    rcases he : eo with _ | t
    · simp [exifRotate]
    · have h3 := (hother t he).1
      have h6 := (hother t he).2.1
      have h8 := (hother t he).2.2
      subst he
      simp [exifRotate, h3, h6, h8]

/-- C8 witness: a concrete 10×20 image with tag 6 is rotated 270° with
swapped dimensions. -/
theorem C8_orientation_mapping_witness :
    exifRotate ⟨10, 20, "RGB", some 6, []⟩ = ⟨20, 10, "RGB", some 6, [.rotate 270]⟩ :=
  (C8_orientation_mapping 10 20 "RGB" (some 6) []).2.1 rfl

/-! ## C1: output dimensions vs requested target -/

/-- C1 (code bug): requesting size `(50, None)` on a 100×100 image does not
yield the derived 50×50 output the claim states; the source resizes with the
caller's original `size` list, whose second component is still `None`, so
PIL raises TypeError. -/
theorem C1_missing_dimension_not_resized :
    crop_resize ⟨100, 100, "RGB", none, []⟩ ((some 50, none) : Option Nat × Option Nat) false
      = .error .typeError := rfl

/-! ## C6: pipeline behaviour on options = None -/

/-- C6 (code bug): with processing options `None` the pipeline does not
return the re-encoded bytes; `process_image` evaluates
`self.proc_opts['size']`, subscripting `None`, and raises TypeError. -/
theorem C6_none_options_pipeline :
    process_image 85 none ".jpg" ⟨100, 100, "RGB", none, []⟩ = .error .typeError := rfl

/-! ## C7: geometry vs orientation normalization order -/

/-- C7 (code bug): for a 100×50 image with EXIF tag 6 and target (25,25),
the rotation to 50×100 does happen first, but `original_width` and
`original_height` were captured before it, so the crop box (25,0,75,50) is
computed from the unrotated 100×50 frame; its right edge 75 exceeds the
rotated image's width 50, contradicting the claim that the geometry uses
the visually-correct (rotated) dimensions. -/
theorem C7_pre_rotation_geometry :
    crop_resize ⟨100, 50, "RGB", some 6, []⟩ ((some 25, some 25) : Option Nat × Option Nat) false
        = .ok ⟨25, 25, "RGB", some 6, [.rotate 270, .cropBox 25 0 75 50, .resized 25 25]⟩
      ∧ (exifRotate ⟨100, 50, "RGB", some 6, []⟩).width = 50 := by
  constructor
  · norm_num [crop_resize, crop_branch, exifRotate, derived_height, derived_width,
      pyTruthy, pyInt, PImg.rotateExpand, PImg.crop, PImg.resize]
  · rfl

/-! ## C10: a target dimension of 0 -/

/-- C10 (code bug): 0 is treated like an unspecified dimension by the
assert, the crop flag and the derivation (the derived height here is 5),
but the final resize uses the caller's raw `(5, 0)` tuple, so a 0-pixel
output IS produced — refuting the claim's "a 0-pixel output can never be
requested". -/
theorem C10_zero_dimension_output :
    crop_resize ⟨100, 100, "RGB", none, []⟩ ((some 5, some 0) : Option Nat × Option Nat) false
        = .ok ⟨5, 0, "RGB", none, [.resized 5 0]⟩
      ∧ derived_height 100 100 ((some 5, some 0) : Option Nat × Option Nat) = 5 := ⟨rfl, rfl⟩

/-! ## C3: crop-rectangle geometry for two-dimensional targets -/

/-- C3 counterexample: a 3×2 original with target (4,3) (`exact_size` true
so the crop path runs): the aspect values 3/2 and 4/3 differ, yet the
computed offset is `int(1/6) = 0` and the crop rectangle (0,0,3,2) is the
full frame — neither width nor height is trimmed, refuting "exactly one of
width/height is trimmed when the ratios differ". -/
theorem C3_crop_geometry_cex :
    ((3 : ℚ) / 2 ≠ (4 : ℚ) / 3)
    ∧ crop_resize ⟨3, 2, "RGB", none, []⟩ ((some 4, some 3) : Option Nat × Option Nat) true
        = .ok ⟨4, 3, "RGB", none, [.cropBox 0 0 3 2, .resized 4 3]⟩ := by
  constructor
  · norm_num
  · norm_num [crop_resize, crop_branch, exifRotate, derived_height, derived_width,
      pyTruthy, pyInt, PImg.crop, PImg.resize]

/-- C2: For positive original dimensions and a target in which exactly one
component is truthy, the missing dimension the source computes (lines
106-110) equals `floor(original_other * given / original_given)` as a
rational floor, and no crop rectangle is ever produced: any image
`crop_resize` returns carries no crop operation in its trace. -/
theorem C2_missing_dimension_derivation (w h : Nat) (size : Option Nat × Option Nat)
    (m : String) (eo : Option Nat) (ex : Bool)
    (hw : 0 < w) (hh : 0 < h) (hone : pyTruthy size.1 ≠ pyTruthy size.2) :
    (pyTruthy size.2 = false →
      ((derived_height w h size : ℕ) : ℤ)
        = ⌊((h : ℚ) * ((size.1.getD 0 : ℕ) : ℚ)) / (w : ℚ)⌋)
    ∧ (pyTruthy size.1 = false →
      ((derived_width w h (size.2.getD 0) size : ℕ) : ℤ)
        = ⌊((w : ℚ) * ((size.2.getD 0 : ℕ) : ℚ)) / (h : ℚ)⌋)
    ∧ (∀ i, crop_resize ⟨w, h, m, eo, []⟩ size ex = .ok i →
        ∀ l u r b, ImgOp.cropBox l u r b ∉ i.ops) := by
  obtain ⟨s1, s2⟩ := size
  simp only at hone
  refine ⟨?_, ?_, ?_⟩
  · intro h2
    have hf := int_floor_nat_div (h * s1.getD 0) w
    push_cast at hf
    simp [derived_height, h2, hf.symm]
  · intro h1
    have hf := int_floor_nat_div (w * s2.getD 0) h
    push_cast at hf
    simp [derived_width, h1, hf.symm]
  · intro i hok l u r b
    have hcrop : (pyTruthy s1 && pyTruthy s2) = false := by
      cases hp : pyTruthy s1 <;> cases hq : pyTruthy s2 <;> simp_all
    unfold crop_resize at hok
    rw [hcrop] at hok
    simp only [Bool.false_eq_true, if_false] at hok
    split_ifs at hok
    · -- early return of the (possibly rotated) image
      have h' : exifRotate ⟨w, h, m, eo, []⟩ = i := by simpa using hok
      subst h'
      intro hmem
      rcases exifRotate_ops_cases ⟨w, h, m, eo, []⟩ with hc | ⟨d, hc⟩ <;>
        simp [hc] at hmem
    · -- final resize branch
      rcases s1 with _ | a <;> rcases s2 with _ | bb
      · simp at hok
      · simp at hok
      · simp at hok
      · have h' : (exifRotate ⟨w, h, m, eo, []⟩).resize a bb = i := by simpa using hok
        subst h'
        intro hmem
        rcases exifRotate_ops_cases ⟨w, h, m, eo, []⟩ with hc | ⟨d, hc⟩ <;>
          simp [PImg.resize, hc] at hmem

/-- C2 witness: 100×100 with target `(50, None)`: derived height is
`⌊100·50/100⌋ = 50`. -/
theorem C2_missing_dimension_derivation_witness :
    ((derived_height 100 100 ((some 50, none) : Option Nat × Option Nat) : ℕ) : ℤ)
      = ⌊((100 : ℕ) : ℚ) * ((((some 50 : Option Nat).getD 0 : ℕ)) : ℚ) / ((100 : ℕ) : ℚ)⌋ := by
  have := (C2_missing_dimension_derivation 100 100 (some 50, none) "RGB" none false
    (by norm_num) (by norm_num) (by decide)).1 rfl
  simpa [mul_div_assoc] using this

/-- C3 (amended): when the crop step runs on a two-dimensional target (all
dimensions positive and the upscale early-return not taken): when the
original aspect value exceeds the target one the crop rectangle is
`(x, 0, w-x, h)` with `x = floor((w - (tw/th)·h)/2)` — only the width is
cut; in the opposite case it is `(0, y, w, h-y)` with
`y = floor((h - w/(tw/th))/2)` — only the height is cut; for equal aspect
values no crop operation happens; the offsets are nonnegative and at most
half the trimmed dimension, so the rectangle always lies inside the
original bounds (the offset may be zero, in which case the ratios differ
yet no pixel is trimmed). -/
theorem C3_crop_geometry (w h tw th : Nat) (m : String) (ex : Bool)
    (hw : 0 < w) (hh : 0 < h) (htw : 0 < tw) (hth : 0 < th)
    (hreach : ¬(tw > w ∧ th > h ∧ ex = false)) :
    ((w : ℚ) / h > (tw : ℚ) / th →
      ∃ x : Int, x = ⌊(1 / 2 : ℚ) * ((w : ℚ) - (tw : ℚ) / th * h)⌋ ∧
        crop_resize ⟨w, h, m, none, []⟩ (some tw, some th) ex =
          .ok (((⟨w, h, m, none, []⟩ : PImg).crop x 0 ((w : Int) - x) (h : Int)).resize tw th) ∧
        0 ≤ x ∧ 2 * x ≤ (w : Int))
    ∧ ((w : ℚ) / h < (tw : ℚ) / th →
      ∃ y : Int, y = ⌊(1 / 2 : ℚ) * ((h : ℚ) - (w : ℚ) / ((tw : ℚ) / th))⌋ ∧
        crop_resize ⟨w, h, m, none, []⟩ (some tw, some th) ex =
          .ok (((⟨w, h, m, none, []⟩ : PImg).crop 0 y (w : Int) ((h : Int) - y)).resize tw th) ∧
        0 ≤ y ∧ 2 * y ≤ (h : Int))
    ∧ ((w : ℚ) / h = (tw : ℚ) / th →
        crop_resize ⟨w, h, m, none, []⟩ (some tw, some th) ex =
          .ok ((⟨w, h, m, none, []⟩ : PImg).resize tw th)) := by
  have hb := crop_resize_both ⟨w, h, m, none, []⟩ tw th ex hh.ne' htw.ne' hth.ne'
  dsimp only at hb
  rw [if_neg hreach, exifRotate_noExif] at hb
  have hh0 : (0 : ℚ) < (h : ℚ) := by positivity
  have hAt0 : (0 : ℚ) < (tw : ℚ) / th := by positivity
  refine ⟨?_, ?_, ?_⟩
  · intro hgt
    have hmul : (tw : ℚ) / th * h < w := by
      have := (lt_div_iff₀ hh0).mp hgt
      linarith
    have harg : (0 : ℚ) ≤ (1 / 2 : ℚ) * ((w : ℚ) - (tw : ℚ) / th * h) := by
      nlinarith
    refine ⟨⌊(1 / 2 : ℚ) * ((w : ℚ) - (tw : ℚ) / th * h)⌋, rfl, ?_,
      Int.floor_nonneg.mpr harg, ?_⟩
    · rw [hb]
      unfold crop_branch
      rw [if_pos hgt]
      unfold pyInt
      rw [if_neg (not_lt.mpr harg)]
    · have hle := Int.floor_le ((1 / 2 : ℚ) * ((w : ℚ) - (tw : ℚ) / th * h))
      have hp : (0 : ℚ) ≤ (tw : ℚ) / th * h := by positivity
      have h2 : ((2 * ⌊(1 / 2 : ℚ) * ((w : ℚ) - (tw : ℚ) / th * h)⌋ : ℤ) : ℚ) ≤ (w : ℚ) := by
        push_cast
        nlinarith
      exact_mod_cast h2
  · intro hlt
    have hmul : (w : ℚ) < (tw : ℚ) / th * h := by
      have := (div_lt_iff₀ hh0).mp hlt
      linarith
    have hdiv : (w : ℚ) / ((tw : ℚ) / th) < h := by
      rw [div_lt_iff₀ hAt0]
      linarith [hmul]
    have harg : (0 : ℚ) ≤ (1 / 2 : ℚ) * ((h : ℚ) - (w : ℚ) / ((tw : ℚ) / th)) := by
      nlinarith
    refine ⟨⌊(1 / 2 : ℚ) * ((h : ℚ) - (w : ℚ) / ((tw : ℚ) / th))⌋, rfl, ?_,
      Int.floor_nonneg.mpr harg, ?_⟩
    · rw [hb]
      unfold crop_branch
      rw [if_neg (asymm hlt), if_pos hlt]
      unfold pyInt
      rw [if_neg (not_lt.mpr harg)]
    · have hle := Int.floor_le ((1 / 2 : ℚ) * ((h : ℚ) - (w : ℚ) / ((tw : ℚ) / th)))
      have hp : (0 : ℚ) ≤ (w : ℚ) / ((tw : ℚ) / th) := by positivity
      have h2 : ((2 * ⌊(1 / 2 : ℚ) * ((h : ℚ) - (w : ℚ) / ((tw : ℚ) / th))⌋ : ℤ) : ℚ) ≤ (h : ℚ) := by
        push_cast
        nlinarith
      exact_mod_cast h2
  · intro heq
    rw [hb]
    unfold crop_branch
    rw [if_neg (by rw [heq]; exact lt_irrefl _), if_neg (by rw [heq]; exact lt_irrefl _)]

/-- C3 witness: a 30×20 original with target (4,3): aspect 3/2 exceeds 4/3,
the crop trims the width with offset `⌊5/3⌋ = 1` and stays inside bounds. -/
theorem C3_crop_geometry_witness :
    ∃ x : Int, x = ⌊(1 / 2 : ℚ) * (((30 : ℕ) : ℚ) - ((4 : ℕ) : ℚ) / ((3 : ℕ) : ℚ) * ((20 : ℕ) : ℚ))⌋ ∧
      crop_resize ⟨30, 20, "RGB", none, []⟩ (some 4, some 3) false =
        .ok (((⟨30, 20, "RGB", none, []⟩ : PImg).crop x 0 (((30 : ℕ) : Int) - x) ((20 : ℕ) : Int)).resize 4 3) ∧
      0 ≤ x ∧ 2 * x ≤ ((30 : ℕ) : Int) :=
  (C3_crop_geometry 30 20 4 3 "RGB" false (by norm_num) (by norm_num) (by norm_num)
    (by norm_num) (by norm_num)).1 (by norm_num)

/-- C4: if both target dimensions exceed the original and `exact_size`
(upscale) is false, `crop_resize` returns the input image untouched (no
crop, no resize — empty trace); if upscale is true or the target exceeds
the original in at most one dimension, the computation proceeds to the
final resize and the output has exactly the target dimensions. -/
theorem C4_upscale_policy (w h tw th : Nat) (m : String) (ex : Bool)
    (hw : 0 < w) (hh : 0 < h) (htw : 0 < tw) (hth : 0 < th) :
    (tw > w → th > h →
      crop_resize ⟨w, h, m, none, []⟩ (some tw, some th) false = .ok ⟨w, h, m, none, []⟩)
    ∧ ((ex = true ∨ ¬(tw > w ∧ th > h)) →
      ∃ i, crop_resize ⟨w, h, m, none, []⟩ (some tw, some th) ex = .ok i ∧
        i.ops.getLast? = some (.resized tw th) ∧ i.width = tw ∧ i.height = th) := by
  have hb := crop_resize_both ⟨w, h, m, none, []⟩ tw th ex hh.ne' htw.ne' hth.ne'
  have hb0 := crop_resize_both ⟨w, h, m, none, []⟩ tw th false hh.ne' htw.ne' hth.ne'
  constructor
  · intro h1 h2
    rw [hb0]
    simp [h1, h2, exifRotate_noExif]
  · intro hcase
    rw [hb]
    have hcond : ¬(tw > w ∧ th > h ∧ ex = false) := by
      rcases hcase with hex | hnb
      · rintro ⟨-, -, hf⟩; rw [hex] at hf; simp at hf
      · rintro ⟨ha, hbb, -⟩; exact hnb ⟨ha, hbb⟩
    rw [if_neg hcond]
    refine ⟨_, rfl, ?_, rfl, rfl⟩
    simp [PImg.resize]

/-- C4 witness: 100×100 with target (200,150), upscale false, is returned
untouched; with target (200,50) (exceeding in only one dimension) the
computation proceeds and resizes to 200×50. -/
theorem C4_upscale_policy_witness :
    crop_resize ⟨100, 100, "RGB", none, []⟩ (some 200, some 150) false
        = .ok ⟨100, 100, "RGB", none, []⟩
    ∧ ∃ i, crop_resize ⟨100, 100, "RGB", none, []⟩ (some 200, some 50) false = .ok i ∧
        i.ops.getLast? = some (.resized 200 50) ∧ i.width = 200 ∧ i.height = 50 :=
  ⟨(C4_upscale_policy 100 100 200 150 "RGB" false (by norm_num) (by norm_num)
      (by norm_num) (by norm_num)).1 (by norm_num) (by norm_num),
   (C4_upscale_policy 100 100 200 50 "RGB" false (by norm_num) (by norm_num)
      (by norm_num) (by norm_num)).2 (Or.inr (by norm_num))⟩

/-- C5: option validation fails with the option error exactly when the raw
options are `None` on a variant, are not a dict, or contain an unsupported
key (the error message naming the first offending key); a `None` on the
source image validates to `None`, and a dict with only supported keys
validates to the defaults (size unset, sharpen/detail/upscale false, format
the process-wide default) overlaid with the supplied keys. -/
theorem C5_option_validation (fmt : String) (idf : Option String) (raw : Option RawOpts) :
    (raw = none → idf ≠ none →
      ∃ msg, setup_image_processing_options fmt idf raw = .error (.thumbnailOptionError msg))
    ∧ (raw = none → idf = none → setup_image_processing_options fmt idf raw = .ok none)
    ∧ (raw = some .nonDict →
      setup_image_processing_options fmt idf raw
        = .error (.thumbnailOptionError "A dictionary object is required"))
    ∧ (∀ entries, raw = some (.pyDict entries) →
      (((∀ kv ∈ entries, kv.1 ∈ defaultKeys) →
        setup_image_processing_options fmt idf raw = .ok (some
          { size := (entries.lookup "size").getD .vNone,
            sharpen := (entries.lookup "sharpen").getD (.vBool false),
            detail := (entries.lookup "detail").getD (.vBool false),
            upscale := (entries.lookup "upscale").getD (.vBool false),
            format := (entries.lookup "format").getD (.vStr fmt) }))
      ∧ ((∃ kv ∈ entries, kv.1 ∉ defaultKeys) →
        ∃ k, k ∉ defaultKeys ∧ k ∈ entries.map Prod.fst ∧
          setup_image_processing_options fmt idf raw
            = .error (.thumbnailOptionError ("Invalid thumbnail option `" ++ k ++ "`"))))) := by
  refine ⟨?_, ?_, ?_, ?_⟩
  · rintro rfl hid
    unfold setup_image_processing_options
    rw [if_pos hid]
    exact ⟨_, rfl⟩
  · rintro rfl rfl
    rfl
  · rintro rfl
    rfl
  · rintro entries rfl
    constructor
    · intro hall
      have hfind : entries.find? (fun kv => !(defaultKeys.contains kv.1)) = none := by
        rw [List.find?_eq_none]
        intro kv hkv
        simp only [Bool.not_eq_true', Bool.not_not]
        intro hcon
        exact absurd (List.elem_iff.mpr (hall kv hkv)) (by simp_all)
      simp only [setup_image_processing_options]
      rw [hfind]
      simp [overlayOpts, DEFAULT_OPTIONS]
    · rintro ⟨kv0, hkv0, hbad0⟩
      have hsome : (entries.find? (fun kv => !(defaultKeys.contains kv.1))).isSome := by
        rw [List.find?_isSome]
        exact ⟨kv0, hkv0, by simpa using fun hc => hbad0 (List.elem_iff.mp hc)⟩
      obtain ⟨kv, hfind⟩ := Option.isSome_iff_exists.mp hsome
      have hmem := List.mem_of_find?_eq_some hfind
      have hp := List.find?_some hfind
      refine ⟨kv.1, ?_, List.mem_map_of_mem Prod.fst hmem, ?_⟩
      · intro hin
        rw [Bool.not_eq_true'] at hp
        exact absurd (List.elem_iff.mpr hin) (by simp_all)
      · simp only [setup_image_processing_options]
        rw [hfind]

/-- C5 witness: the raw options `{'bogus': True}` are rejected with an
error naming `bogus`. -/
theorem C5_option_validation_witness :
    ∃ k, k ∉ defaultKeys ∧ k ∈ ([("bogus", OptVal.vBool true)].map Prod.fst) ∧
      setup_image_processing_options "JPEG" none (some (.pyDict [("bogus", .vBool true)]))
        = .error (.thumbnailOptionError ("Invalid thumbnail option `" ++ k ++ "`")) :=
  ((C5_option_validation "JPEG" none (some (.pyDict [("bogus", .vBool true)]))).2.2.2
      [("bogus", .vBool true)] rfl).2 ⟨("bogus", .vBool true), by simp, by decide⟩

/-- C9: path resolution follows the spec's extension precedence and naming
shapes: `generate_image_name` agrees with the spec-transcribed
`resolve_path_spec` for any non-empty name, both when options carry a
canonical format string (one that lowercases to "jpeg" only if it is
exactly "JPEG") and when options are absent; and the concrete examples
resolve as stated, in particular
`images/photo.jpg` with variant `small`, JPEG format and subdirectory
`thumbs` yields `images/thumbs/photo.small.jpg`. -/
theorem C9_path_resolution :
    (∀ (subdir nm : String) (idf : Option String) (force : Option String)
        (opts : ProcOpts) (fs : String),
      nm ≠ "" → opts.format = .vStr fs → (pyStrLower fs = "jpeg" → fs = "JPEG") →
      (generate_image_name subdir idf (some opts) nm force).map Prod.fst
        = .ok (resolve_path_spec subdir idf (some fs) nm force))
    ∧ (∀ (subdir nm : String) (idf : Option String) (force : Option String),
      nm ≠ "" →
      (generate_image_name subdir idf none nm force).map Prod.fst
        = .ok (resolve_path_spec subdir idf none nm force))
    ∧ generate_image_name "thumbs" (some "small") (some (DEFAULT_OPTIONS "JPEG"))
        "images/photo.jpg" none = .ok ("images/thumbs/photo.small.jpg", ".jpg")
    ∧ generate_image_name "thumbs" none (some (DEFAULT_OPTIONS "PNG"))
        "images/photo.jpg" none = .ok ("images/photo.png", ".png") := by
  refine ⟨?_, ?_, rfl, rfl⟩
  · intro subdir nm idf force opts fs hnm hfmt hjp
    unfold generate_image_name resolve_path_spec spec_extension get_image_extension
    rw [if_neg hnm]
    dsimp only
    rw [hfmt]
    cases force with
    | some e =>
        cases idf with
        | none => rfl
        | some idf0 =>
            by_cases hsub : subdir = "" <;> simp [hsub, Except.map]
    | none =>
        by_cases hfs : fs = ""
        · subst hfs
          cases idf with
          | none => rfl
          | some idf0 =>
              by_cases hsub : subdir = "" <;>
                simp [hsub, Except.map, pyTruthyVal, pyLower, pyStr, pyStrLower]
        · by_cases hj : pyStrLower fs = "jpeg"
          · have : fs = "JPEG" := hjp hj
            subst this
            cases idf with
            | none => rfl
            | some idf0 =>
                by_cases hsub : subdir = "" <;>
                  simp [hsub, Except.map, pyTruthyVal, pyLower, pyStr, pyStrLower]
          · have hne : fs ≠ "JPEG" := by
              rintro rfl
              exact hj rfl
            cases idf with
            | none =>
                simp [pyTruthyVal, pyLower, hfs, hj, hne, Except.map, pyStr]
            | some idf0 =>
                by_cases hsub : subdir = "" <;>
                  simp [hsub, pyTruthyVal, pyLower, hfs, hj, hne, Except.map, pyStr]
  · intro subdir nm idf force hnm
    unfold generate_image_name resolve_path_spec spec_extension get_image_extension
    rw [if_neg hnm]
    cases force with
    | some e =>
        cases idf with
        | none => rfl
        | some idf0 => by_cases hsub : subdir = "" <;> simp [hsub, Except.map]
    | none =>
        cases idf with
        | none => rfl
        | some idf0 => by_cases hsub : subdir = "" <;> simp [hsub, Except.map]

/-- C9 witness: the variant example applied through the refinement
theorem. -/
theorem C9_path_resolution_witness :
    (generate_image_name "thumbs" (some "small") (some (DEFAULT_OPTIONS "JPEG"))
        "images/photo.jpg" none).map Prod.fst
      = .ok (resolve_path_spec "thumbs" (some "small") (some "JPEG") "images/photo.jpg" none) :=
  C9_path_resolution.1 "thumbs" "images/photo.jpg" (some "small") none
    (DEFAULT_OPTIONS "JPEG") "JPEG" (by decide) rfl (fun _ => rfl)
